import Mathlib

/-!
Verification of the bundle-variant configuration generator in
`rollup.config.js`: a shallow embedding of its helper functions
(`getLastElement`, `insertAt`), its config builders (`makeBaseBundleConfig`,
`makeBundleConfigVariants`, `makeBaseNPMConfig`) and the plugin pipeline they
assemble, together with theorems settling the specified properties.
-/

namespace RollupConfig

/-- Plugins are opaque named units of build behaviour. Each distinct plugin
construction appearing in `rollup.config.js` is one constructor, carrying the
data that distinguishes separately-constructed instances (the typescript
compile target, the license banner title, the boolean handed to
`makeIsDebugBuildPlugin`). -/
inductive Plugin where
  /-- embeds `typescript(...)` with the given `target` compiler option (es5 / es6) -/
  | typescriptTarget (target : String)
  /-- the `replace(...)` instance `markAsBrowserBuildPlugin` -/
  | markAsBrowserBuild
  /-- the `resolve()` instance `nodeResolvePlugin` -/
  | nodeResolve
  /-- embeds `license(...)` as built by `makeLicensePlugin` with a banner title -/
  | licenseBanner (title : String)
  /-- embeds `replace(...)` as built by `makeIsDebugBuildPlugin includeDebugging` -/
  | debugFlag (includeDebugging : Bool)
  /-- the `terser(...)` instance `terserPlugin` -/
  | terserMinify
  /-- embeds `sucrase(...)` as built inside `makeBaseNPMConfig` -/
  | sucraseTransform
  /-- embeds `regexReplace(...)` (const-to-var) as built inside `makeBaseNPMConfig` -/
  | constToVar
  /-- any other plugin, identified by the name it reports -/
  | otherNamed (nm : String)
deriving Repr, DecidableEq

/-- The `name` property a rollup plugin instance reports; the validation in
`makeBundleConfigVariants` compares it against "rollup-plugin-license". -/
def Plugin.name : Plugin → String
  | .typescriptTarget _ => "rpt2"
  | .markAsBrowserBuild => "replace"
  | .nodeResolve => "node-resolve"
  | .licenseBanner _ => "rollup-plugin-license"
  | .debugFlag _ => "replace"
  | .terserMinify => "terser"
  | .sucraseTransform => "sucrase"
  | .constToVar => "re"
  | .otherNamed nm => nm

/-- Embeds `getLastElement = array => array[array.length - 1]`. Indexing past the end
(the empty-array case, where `array.length - 1` is `-1` in JS) yields
`undefined`, modelled as `none`. -/
def getLastElement (array : List α) : Option α :=
  array.get? (array.length - 1)

/-- Clamping of the splice start index per `Array.prototype.splice`: a
negative start counts back from the end (clamped at 0), a non-negative start
is clamped at the array length. -/
def spliceStart (len : Nat) (start : Int) : Nat :=
  if start < 0 then ((len : Int) + start).toNat else min start.toNat len

/-- Embeds `newArr.splice(start, 0, ...insertees)` acting on a copy of the array:
insert the items at the clamped start position, deleting nothing. -/
def spliceInsert (arr : List α) (start : Int) (insertees : List α) : List α :=
  arr.take (spliceStart arr.length start) ++ insertees
    ++ arr.drop (spliceStart arr.length start)

/-- Embeds `insertAt(arr, index, ...insertees)` from `rollup.config.js`: copy `arr`
and splice the insertees in at `index`; a negative index is first shifted by
`arr.length + 1` (not `arr.length`) so that it addresses a position counted
from the end of the one-element-longer result array. -/
def insertAt (arr : List α) (index : Int) (insertees : List α) : List α :=
  spliceInsert arr
    (if 0 ≤ index then index else (arr.length : Int) + 1 + index) insertees

example : insertAt [10, 20, 30] (-2) [9] = [10, 20, 9, 30] := by decide
example : insertAt [10, 20] (-1) [9] = [10, 20, 9] := by decide
example : insertAt ([] : List Nat) 1 [5] = [5] := by decide
example : getLastElement ([] : List Nat) = none := by decide
example : getLastElement [1, 2] = some 2 := by decide

/-- The `output` object of a rollup config. Every field used anywhere in
`rollup.config.js` appears here; a field absent from a given JS object is
`none`. The `outro` of the add-on bundle config is a thunk in the source that
returns a fixed string, modelled by the string it returns. -/
structure OutputSpec where
  file : Option String := none
  dir : Option String := none
  format : Option String := none
  name : Option String := none
  sourcemap : Option Bool := none
  strict : Option Bool := none
  esModule : Option Bool := none
  preserveModules : Option Bool := none
  generatedCode : Option String := none
  externalLiveBindings : Option Bool := none
  interop : Option String := none
  banner : Option String := none
  intro : Option String := none
  outro : Option String := none
  footer : Option String := none
deriving Repr, DecidableEq

/-- The `treeshake` setting: either a preset name (the bundle configs use
the string "smallest") or a boolean (the NPM config uses `false`). -/
inductive TreeshakeSetting where
  | preset (s : String)
  | flag (b : Bool)
deriving Repr, DecidableEq

/-- A rollup configuration object, covering the fields produced by
`makeBaseBundleConfig`, `makeBundleConfigVariants` and `makeBaseNPMConfig`. -/
structure BuildConfig where
  input : Option String := none
  output : OutputSpec := {}
  plugins : List Plugin := []
  context : Option String := none
  treeshake : Option TreeshakeSetting := none
  external : List String := []
deriving Repr, DecidableEq

/-- Merge one optional scalar field: the second (source) object's value wins
whenever it is present, otherwise the first (target) object's value is kept.
This is what `deepmerge` does on scalar fields. -/
def overrideField (target source : Option α) : Option α :=
  match source with
  | some v => some v
  | none => target

/-- Embeds `deepmerge` restricted to the nested `output` objects occurring in
`rollup.config.js`: every `output` field there is a scalar, so the merge is
field-wise, source-wins-when-present. -/
def mergeOutput (target source : OutputSpec) : OutputSpec where
  file := overrideField target.file source.file
  dir := overrideField target.dir source.dir
  format := overrideField target.format source.format
  name := overrideField target.name source.name
  sourcemap := overrideField target.sourcemap source.sourcemap
  strict := overrideField target.strict source.strict
  esModule := overrideField target.esModule source.esModule
  preserveModules := overrideField target.preserveModules source.preserveModules
  generatedCode := overrideField target.generatedCode source.generatedCode
  externalLiveBindings := overrideField target.externalLiveBindings source.externalLiveBindings
  interop := overrideField target.interop source.interop
  banner := overrideField target.banner source.banner
  intro := overrideField target.intro source.intro
  outro := overrideField target.outro source.outro
  footer := overrideField target.footer source.footer

/-- Embeds `const nodeResolvePlugin = resolve()`. -/
def nodeResolvePlugin : Plugin := .nodeResolve

/-- Embeds `makeLicensePlugin(title)`. The banner text also embeds the short git
commit hash read by a child process; that hash does not influence any
configuration structure, so the plugin value is identified by its title. -/
def makeLicensePlugin (title : String) : Plugin := .licenseBanner title

/-- Embeds `makeIsDebugBuildPlugin(includeDebugging)`: a `replace` plugin resolving
the compile-time flag to the given boolean. -/
def makeIsDebugBuildPlugin (includeDebugging : Bool) : Plugin :=
  .debugFlag includeDebugging

/-- Embeds `export const terserPlugin = terser(...)`. -/
def terserPlugin : Plugin := .terserMinify

/-- the `replace` instance `markAsBrowserBuildPlugin` built inside
`makeBaseBundleConfig` -/
def markAsBrowserBuildPlugin : Plugin := .markAsBrowserBuild

/-- Embeds `typescriptPluginES5`: the typescript plugin with compile target es5. -/
def typescriptPluginES5 : Plugin := .typescriptTarget "es5"

/-- Embeds `typescriptPluginES6`: the typescript plugin with compile target es6. -/
def typescriptPluginES6 : Plugin := .typescriptTarget "es6"

/-- The argument object of `makeBaseBundleConfig`. -/
structure BundleOptions where
  input : String
  isAddOn : Bool
  jsVersion : String
  licenseTitle : String
  outputFileBase : String
deriving Repr, DecidableEq

/-- The `output` part of `standAloneBundleConfig` (`format: iife`,
`name: Sentry`); the config also sets the top-level `context: window`. -/
def standAloneOutput : OutputSpec :=
  { format := some "iife", name := some "Sentry" }

/-- The `output` part of `addOnBundleConfig`: a CJS wrapper with banner,
intro, outro and footer text that merges the exports into the preexisting
global namespace object. -/
def addOnOutput : OutputSpec :=
  { format := some "cjs"
    banner := some "(function (__window) \x7b"
    intro := some "var exports = \x7b\x7d;"
    outro := some (String.intercalate "\n"
      [ ""
        , "  // Add this module\x27s exports to the global \x60Sentry.Integrations\x60"
        , "  __window.Sentry = __window.Sentry || \x7b\x7d;"
        , "  __window.Sentry.Integrations = __window.Sentry.Integrations || \x7b\x7d;"
        , "  for (var key in exports) \x7b"
        , "    if (Object.prototype.hasOwnProperty.call(exports, key)) \x7b"
        , "      __window.Sentry.Integrations[key] = exports[key];"
        , "    \x7d"
        , "  \x7d" ])
    footer := some "\x7d(window));" }

/-- Embeds `makeBaseBundleConfig(options)`: assembles the shared bundle config (the
plugin pipeline `[typescript, markAsBrowserBuild, nodeResolve, license]`,
the output file base, treeshake "smallest") and deep-merges the
stand-alone or add-on shape onto it. Neither shape override carries a
`plugins` field, so the merge only touches `output` (and `context` for the
stand-alone shape). -/
def makeBaseBundleConfig (options : BundleOptions) : BuildConfig :=
  let licensePlugin := makeLicensePlugin options.licenseTitle
  let sharedBundleConfig : BuildConfig :=
    { input := some options.input
      output :=
        { file := some ("build/" ++ options.outputFileBase)
          sourcemap := some true
          strict := some false
          esModule := some false }
      plugins :=
        [ if options.jsVersion.toLower = "es5" then typescriptPluginES5
          else typescriptPluginES6
          , markAsBrowserBuildPlugin, nodeResolvePlugin, licensePlugin ]
      treeshake := some (.preset "smallest") }
  if options.isAddOn then
    { sharedBundleConfig with
        output := mergeOutput sharedBundleConfig.output addOnOutput }
  else
    { sharedBundleConfig with
        output := mergeOutput sharedBundleConfig.output standAloneOutput
        context := some "window" }

/-- The failure modes of the guard at the top of `makeBundleConfigVariants`:
an empty pipeline makes `getLastElement(plugins).name` a property read on
`undefined` (a TypeError), and a present last plugin whose name is not
"rollup-plugin-license" fails the `assert`. The spec files both under
ConfigurationError. -/
inductive ConfigurationError where
  | typeError
  | assertFailed (found : String)
deriving Repr, DecidableEq

/-- The guard of `makeBundleConfigVariants`: the `assert` that the last
plugin of the pipeline reports the name "rollup-plugin-license", including
the implicit empty-pipeline failure of reading `.name` off `undefined`. -/
def validateDistributableBundle (plugins : List Plugin) :
    Except ConfigurationError Unit :=
  match getLastElement plugins with
  | none => .error .typeError
  | some p =>
      if p.name = "rollup-plugin-license" then .ok ()
      else .error (.assertFailed p.name)

/-- A JS template literal interpolates a missing (`undefined`) value as the
text "undefined"; `makeBundleConfigVariants` interpolates
`baseConfig.output.file` this way. -/
def fileBaseString (file : Option String) : String :=
  match file with
  | some f => f
  | none => "undefined"

/-- Embeds `makeBundleConfigVariants(baseConfig)`: after the license-plugin-last
guard, builds the three variant overrides (plain `.js` with the debug flag
set, `.min.js` with the debug flag cleared plus terser, `.debug.min.js` with
the debug flag set plus terser), each splicing its plugins into a copy of the
base pipeline at index -2, and deep-merges each override onto the base with
the `arrayMerge: (first, second) => second` strategy, so each variant's
`plugins` array wholly replaces the base's. -/
def makeBundleConfigVariants (baseConfig : BuildConfig) :
    Except ConfigurationError (List BuildConfig) :=
  match validateDistributableBundle baseConfig.plugins with
  | .error e => .error e
  | .ok _ =>
    let plugins := baseConfig.plugins
    let includeDebuggingPlugin := makeIsDebugBuildPlugin true
    let stripDebuggingPlugin := makeIsDebugBuildPlugin false
    let fileBase := fileBaseString baseConfig.output.file
    let variantSpecificConfigs : List (OutputSpec × List Plugin) :=
      [ ({ file := some (fileBase ++ ".js") },
          insertAt plugins (-2) [includeDebuggingPlugin])
        , ({ file := some (fileBase ++ ".min.js") },
          insertAt plugins (-2) [stripDebuggingPlugin, terserPlugin])
        , ({ file := some (fileBase ++ ".debug.min.js") },
          insertAt plugins (-2) [includeDebuggingPlugin, terserPlugin]) ]
    .ok (variantSpecificConfigs.map fun variant =>
      { baseConfig with
          output := mergeOutput baseConfig.output variant.1
          plugins := variant.2 })

/-- The dependency-related shape of the `package.json` manifest read at
module load; each category is `none` when the manifest lacks the field
(the source guards each with `|| \x7b\x7d`). -/
structure PackageDotJSON where
  dependencies : Option (List (String × String)) := none
  devDependencies : Option (List (String × String)) := none
  peerDependencies : Option (List (String × String)) := none
deriving Repr, DecidableEq

/-- Embeds `Object.keys(record || ...)` (empty-object fallback) for one dependency category. -/
def jsKeys (record : Option (List (String × String))) : List String :=
  (record.getD []).map Prod.fst

/-- The argument object of `makeBaseNPMConfig`; both properties may be
absent. -/
structure NPMOptions where
  entrypoint : Option String := none
  esModuleInterop : Option Bool := none
deriving Repr, DecidableEq

/-- Embeds `makeBaseNPMConfig(options = ...)` with its default empty options. The module-level environment
inputs (`builtinModules` from the `module` package and the `package.json`
manifest of the working directory) are passed as parameters. The input falls
back to "src/index.ts" when `entrypoint` is absent or empty (JS `||` on a
string is falsy exactly on the empty string), and `interop` is "auto" when
`esModuleInterop` is truthy, "esModule" otherwise. -/
def makeBaseNPMConfig (builtinModules : List String)
    (packageDotJSON : PackageDotJSON) (options : NPMOptions := {}) :
    BuildConfig :=
  { input := some (match options.entrypoint with
      | some e => if e = "" then "src/index.ts" else e
      | none => "src/index.ts")
    output :=
      { sourcemap := some true
        preserveModules := some true
        generatedCode := some "es2015"
        strict := some false
        externalLiveBindings := some false
        interop := some (if options.esModuleInterop.getD false then "auto"
          else "esModule") }
    plugins := [nodeResolvePlugin, .sucraseTransform, .constToVar]
    external := builtinModules ++ jsKeys packageDotJSON.dependencies
      ++ jsKeys packageDotJSON.devDependencies
      ++ jsKeys packageDotJSON.peerDependencies
    treeshake := some (.flag false) }

/-- A concrete valid base config (license plugin last) used to instantiate
the variant theorems at a specific input. -/
def exampleBase : BuildConfig :=
  { input := some "index.ts"
    output := { file := some "build/bundle" }
    plugins := [nodeResolvePlugin, markAsBrowserBuildPlugin,
      makeLicensePlugin "T"] }

/-- A concrete argument object for `makeBaseBundleConfig`. -/
def exampleBundleOptions : BundleOptions :=
  { input := "index.ts", isAddOn := false, jsVersion := "es5",
    licenseTitle := "T", outputFileBase := "bundle" }

/-- The concrete manifest of the specified external-set scenario. -/
def exampleManifest : PackageDotJSON :=
  { dependencies := some [("a", "1")]
    devDependencies := some [("b", "2")]
    peerDependencies := some [] }

/-! ### Helper lemmas -/

theorem getLastElement_eq_none_iff (l : List α) :
    getLastElement l = none ↔ l = [] := by
  unfold getLastElement
  rw [List.get?_eq_none]
  rcases l with _ | ⟨a, tl⟩
  · simp
  · simp

theorem getLastElement_ne_nil {l : List α} {p : α}
    (h : getLastElement l = some p) : l ≠ [] := by
  intro hnil
  rw [hnil] at h
  simp [getLastElement] at h

theorem spliceStart_le (len : Nat) (start : Int) : spliceStart len start ≤ len := by
  unfold spliceStart
  split <;> omega

theorem spliceInsert_length (arr : List α) (start : Int) (insertees : List α) :
    (spliceInsert arr start insertees).length = arr.length + insertees.length := by
  have h := spliceStart_le arr.length start
  simp [spliceInsert, List.length_take, List.length_drop]
  omega

theorem insertAt_length (arr : List α) (index : Int) (insertees : List α) :
    (insertAt arr index insertees).length = arr.length + insertees.length := by
  unfold insertAt
  exact spliceInsert_length ..

theorem get?_take_append_cons (s : List α) (k : Nat) (x : α) (tail : List α)
    (hk : k ≤ s.length) :
    (s.take k ++ x :: tail).get? k = some x := by
  have hlen : (s.take k).length = k := by
    simp [List.length_take]
    omega
  rw [List.get?_append_right (le_of_eq hlen), hlen]
  simp

theorem insertAt_append_end (s insertees : List α) :
    insertAt s (-1) insertees = s ++ insertees := by
  unfold insertAt
  rw [if_neg (by decide)]
  unfold spliceInsert
  have hk : spliceStart s.length ((s.length : Int) + 1 + (-1)) = s.length := by
    unfold spliceStart
    split <;> omega
  rw [hk, List.take_length, List.drop_length, List.append_nil]

theorem insertAt_neg_two (s insertees : List α) :
    insertAt s (-2) insertees =
      s.take (s.length - 1) ++ insertees ++ s.drop (s.length - 1) := by
  unfold insertAt
  rw [if_neg (by decide)]
  unfold spliceInsert
  have hk : spliceStart s.length ((s.length : Int) + 1 + (-2)) = s.length - 1 := by
    unfold spliceStart
    split <;> omega
  rw [hk]

theorem insertAt_neg_two_get? (s : List α) (x : α) (rest : List α) :
    (insertAt s (-2) (x :: rest)).get? (s.length - 1) = some x := by
  rw [insertAt_neg_two]
  have h := get?_take_append_cons s (s.length - 1) x
    (rest ++ s.drop (s.length - 1)) (by omega)
  simpa [List.append_assoc] using h

theorem validate_ok_iff (plugins : List Plugin) :
    validateDistributableBundle plugins = .ok () ↔
      ∃ p, getLastElement plugins = some p ∧
        p.name = "rollup-plugin-license" := by
  unfold validateDistributableBundle
  split
  next hl =>
    simp [hl]
  next p hl =>
    rw [hl]
    by_cases hname : p.name = "rollup-plugin-license"
    · simp [if_pos hname, hname]
    · simp [if_neg hname, hname]

theorem makeBundleConfigVariants_ok (baseConfig : BuildConfig)
    (h : validateDistributableBundle baseConfig.plugins = .ok ()) :
    makeBundleConfigVariants baseConfig = .ok
      [ { baseConfig with
            output := mergeOutput baseConfig.output
              { file := some (fileBaseString baseConfig.output.file ++ ".js") }
            plugins := insertAt baseConfig.plugins (-2)
              [makeIsDebugBuildPlugin true] }
        , { baseConfig with
            output := mergeOutput baseConfig.output
              { file := some (fileBaseString baseConfig.output.file
                  ++ ".min.js") }
            plugins := insertAt baseConfig.plugins (-2)
              [makeIsDebugBuildPlugin false, terserPlugin] }
        , { baseConfig with
            output := mergeOutput baseConfig.output
              { file := some (fileBaseString baseConfig.output.file
                  ++ ".debug.min.js") }
            plugins := insertAt baseConfig.plugins (-2)
              [makeIsDebugBuildPlugin true, terserPlugin] } ] := by
  unfold makeBundleConfigVariants
  rw [h]
  rfl

theorem string_append_right_ne (s a b : String) (h : a ≠ b) :
    s ++ a ≠ s ++ b := by
  intro hab
  apply h
  have hdata := congrArg String.data hab
  simp only [String.data_append] at hdata
  exact String.ext (List.append_cancel_left hdata)

/-! ### Claim theorems -/

/-- C1: for a base config whose plugins are [resolve, mark, license]
(license last), makeBundleConfigVariants produces the plain variant with
plugins [resolve, mark, debugFlag(true), license], a minified variant with
debug enabled having plugins [resolve, mark, debugFlag(true), terser,
license], and a minified variant with debug stripped having plugins
[resolve, mark, debugFlag(false), terser, license]; each variant's plugins
list wholly replaces the base list. -/
theorem variants_of_resolve_mark_license (baseConfig : BuildConfig)
    (t : String)
    (h : baseConfig.plugins =
      [nodeResolvePlugin, markAsBrowserBuildPlugin, makeLicensePlugin t]) :
    ∃ plain minStripped minDebug : BuildConfig,
      makeBundleConfigVariants baseConfig =
        .ok [plain, minStripped, minDebug] ∧
      plain.plugins = [nodeResolvePlugin, markAsBrowserBuildPlugin,
        makeIsDebugBuildPlugin true, makeLicensePlugin t] ∧
      minDebug.plugins = [nodeResolvePlugin, markAsBrowserBuildPlugin,
        makeIsDebugBuildPlugin true, terserPlugin, makeLicensePlugin t] ∧
      minStripped.plugins = [nodeResolvePlugin, markAsBrowserBuildPlugin,
        makeIsDebugBuildPlugin false, terserPlugin, makeLicensePlugin t] := by
  have hv : validateDistributableBundle baseConfig.plugins = .ok () := by
    rw [h]
    rfl
  refine ⟨_, _, _, makeBundleConfigVariants_ok baseConfig hv, ?_, ?_, ?_⟩ <;>
    simp only [h] <;> rfl

/-- C1 witness: the theorem instantiated at a concrete base config. -/
theorem variants_of_resolve_mark_license_witness :
    ∃ plain minStripped minDebug : BuildConfig,
      makeBundleConfigVariants exampleBase =
        .ok [plain, minStripped, minDebug] ∧
      plain.plugins = [nodeResolvePlugin, markAsBrowserBuildPlugin,
        makeIsDebugBuildPlugin true, makeLicensePlugin "T"] ∧
      minDebug.plugins = [nodeResolvePlugin, markAsBrowserBuildPlugin,
        makeIsDebugBuildPlugin true, terserPlugin, makeLicensePlugin "T"] ∧
      minStripped.plugins = [nodeResolvePlugin, markAsBrowserBuildPlugin,
        makeIsDebugBuildPlugin false, terserPlugin, makeLicensePlugin "T"] :=
  variants_of_resolve_mark_license exampleBase "T" rfl

/-- C2 counterexample: on a valid concrete base config, the second config
returned by makeBundleConfigVariants is the minified one with the debug flag
cleared (debug stripped), not the claimed minified-with-debug-enabled one;
the debug-enabled minified config comes third. -/
theorem variant_order_counterexample :
    (((makeBundleConfigVariants exampleBase).toOption.getD []).getD 1
        {}).plugins =
      [nodeResolvePlugin, markAsBrowserBuildPlugin,
        makeIsDebugBuildPlugin false, terserPlugin, makeLicensePlugin "T"] ∧
    makeIsDebugBuildPlugin true ∉
      (((makeBundleConfigVariants exampleBase).toOption.getD []).getD 1
        {}).plugins ∧
    terserPlugin ∈
      (((makeBundleConfigVariants exampleBase).toOption.getD []).getD 1
        {}).plugins := by
  refine ⟨rfl, by decide, by decide⟩

/-- C2 amended: for every base config passing the license-last validation,
makeBundleConfigVariants returns exactly three configs whose output files
carry the distinct suffixes ".js", ".min.js" and ".debug.min.js", in the
order: non-minified with debug enabled, minified with debug stripped,
minified with debug enabled. -/
theorem variants_count_suffixes_order (baseConfig : BuildConfig)
    (h : validateDistributableBundle baseConfig.plugins = .ok ()) :
    ∃ plain minified debugMinified : BuildConfig,
      makeBundleConfigVariants baseConfig =
        .ok [plain, minified, debugMinified] ∧
      plain.output.file =
        some (fileBaseString baseConfig.output.file ++ ".js") ∧
      minified.output.file =
        some (fileBaseString baseConfig.output.file ++ ".min.js") ∧
      debugMinified.output.file =
        some (fileBaseString baseConfig.output.file ++ ".debug.min.js") ∧
      plain.output.file ≠ minified.output.file ∧
      plain.output.file ≠ debugMinified.output.file ∧
      minified.output.file ≠ debugMinified.output.file ∧
      plain.plugins = insertAt baseConfig.plugins (-2)
        [makeIsDebugBuildPlugin true] ∧
      minified.plugins = insertAt baseConfig.plugins (-2)
        [makeIsDebugBuildPlugin false, terserPlugin] ∧
      debugMinified.plugins = insertAt baseConfig.plugins (-2)
        [makeIsDebugBuildPlugin true, terserPlugin] := by
  refine ⟨_, _, _, makeBundleConfigVariants_ok baseConfig h,
    rfl, rfl, rfl, ?_, ?_, ?_, rfl, rfl, rfl⟩
  · intro hfile
    have := Option.some.inj hfile
    exact string_append_right_ne _ _ _ (by decide) this
  · intro hfile
    have := Option.some.inj hfile
    exact string_append_right_ne _ _ _ (by decide) this
  · intro hfile
    have := Option.some.inj hfile
    exact string_append_right_ne _ _ _ (by decide) this

/-- C2 witness: the amended theorem instantiated at a concrete base
config. -/
theorem variants_count_suffixes_order_witness :
    ∃ plain minified debugMinified : BuildConfig,
      makeBundleConfigVariants exampleBase =
        .ok [plain, minified, debugMinified] ∧
      plain.output.file =
        some (fileBaseString exampleBase.output.file ++ ".js") ∧
      minified.output.file =
        some (fileBaseString exampleBase.output.file ++ ".min.js") ∧
      debugMinified.output.file =
        some (fileBaseString exampleBase.output.file ++ ".debug.min.js") ∧
      plain.output.file ≠ minified.output.file ∧
      plain.output.file ≠ debugMinified.output.file ∧
      minified.output.file ≠ debugMinified.output.file ∧
      plain.plugins = insertAt exampleBase.plugins (-2)
        [makeIsDebugBuildPlugin true] ∧
      minified.plugins = insertAt exampleBase.plugins (-2)
        [makeIsDebugBuildPlugin false, terserPlugin] ∧
      debugMinified.plugins = insertAt exampleBase.plugins (-2)
        [makeIsDebugBuildPlugin true, terserPlugin] :=
  variants_count_suffixes_order exampleBase rfl

/-- C3 counterexample: at a concrete argument, position 1 of the pipeline
built by makeBaseBundleConfig is the platform-marker plugin and position 2
is the module-resolution plugin, refuting the claimed order in which the
module-resolution plugin comes directly after the transpilation plugin. -/
theorem base_bundle_plugin_order_counterexample :
    (makeBaseBundleConfig exampleBundleOptions).plugins.get? 1 =
      some markAsBrowserBuildPlugin ∧
    (makeBaseBundleConfig exampleBundleOptions).plugins.get? 2 =
      some nodeResolvePlugin ∧
    markAsBrowserBuildPlugin ≠ nodeResolvePlugin := by
  refine ⟨rfl, rfl, by decide⟩

/-- C3 amended: for every input, the pipeline built by makeBaseBundleConfig
is, in this fixed order: the target-level-appropriate transpilation plugin,
the platform-marker (browser-flag) plugin, the module-resolution plugin,
and the license-banner plugin last. -/
theorem base_bundle_plugin_order (options : BundleOptions) :
    (makeBaseBundleConfig options).plugins =
      [ if options.jsVersion.toLower = "es5" then typescriptPluginES5
        else typescriptPluginES6
        , markAsBrowserBuildPlugin, nodeResolvePlugin,
        makeLicensePlugin options.licenseTitle ] := by
  unfold makeBaseBundleConfig
  cases hAdd : options.isAddOn <;> rfl

/-- C4: the validation guarding makeBundleConfigVariants fails exactly when
the plugin sequence is empty or when the final element's name differs from
"rollup-plugin-license", and succeeds for every other plugin sequence. -/
theorem validate_fails_iff (plugins : List Plugin) :
    ((∃ e, validateDistributableBundle plugins = .error e) ↔
      (plugins = [] ∨ ∃ p, getLastElement plugins = some p ∧
        p.name ≠ "rollup-plugin-license")) ∧
    (validateDistributableBundle plugins = .ok () ↔
      ¬ (plugins = [] ∨ ∃ p, getLastElement plugins = some p ∧
        p.name ≠ "rollup-plugin-license")) := by
  have hok := validate_ok_iff plugins
  constructor
  · unfold validateDistributableBundle
    split
    next hl =>
      have hnil : plugins = [] := (getLastElement_eq_none_iff plugins).mp hl
      exact ⟨fun _ => Or.inl hnil, fun _ => ⟨.typeError, rfl⟩⟩
    next p hl =>
      by_cases hname : p.name = "rollup-plugin-license"
      · rw [if_pos hname]
        constructor
        · rintro ⟨e, he⟩
          cases he
        · rintro (hnil | ⟨q, hq, hqname⟩)
          · rw [hnil] at hl
            simp [getLastElement] at hl
          · rw [hl] at hq
            cases hq
            exact absurd hname hqname
      · rw [if_neg hname]
        exact ⟨fun _ => Or.inr ⟨p, hl, hname⟩,
          fun _ => ⟨.assertFailed p.name, rfl⟩⟩
  · rw [hok]
    constructor
    · rintro ⟨p, hp, hname⟩ (hnil | ⟨q, hq, hqname⟩)
      · exact getLastElement_ne_nil hp hnil
      · rw [hp] at hq
        cases hq
        exact hqname hname
    · intro hnot
      rcases hl : getLastElement plugins with _ | p
      · exact absurd (Or.inl ((getLastElement_eq_none_iff plugins).mp hl))
          hnot
      · by_cases hname : p.name = "rollup-plugin-license"
        · exact ⟨p, rfl, hname⟩
        · exact absurd (Or.inr ⟨p, hl, hname⟩) hnot

theorem insertAt_nonneg_eq (s : List α) (i : Nat) (insertees : List α) :
    insertAt s (i : Int) insertees =
      s.take (min i s.length) ++ insertees ++ s.drop (min i s.length) := by
  unfold insertAt
  rw [if_pos (by omega)]
  unfold spliceInsert
  have hk : spliceStart s.length (i : Int) = min i s.length := by
    unfold spliceStart
    rw [if_neg (by omega)]
    omega
  rw [hk]

/-- C5 counterexample: at s = [], i = 1 and x = 5 the claimed
`result[i] = x` fails (splice clamps an out-of-range non-negative index to
the array length, so x lands at position 0, not position 1). -/
theorem insertAt_nonneg_counterexample :
    (insertAt ([] : List Nat) 1 [5]).length = 0 + 1 ∧
    insertAt ([] : List Nat) 1 [5] = [5] ∧
    (insertAt ([] : List Nat) 1 [5]).get? 1 ≠ some 5 := by
  decide

/-- C5 (amended): for every sequence s, non-negative i and item x,
insertAt(s, i, x) has length len(s)+1, equals the original elements with x
inserted at position min(i, len(s)) (so relative order is kept and, the
embedding being pure, s itself is untouched), and the element at position i
of the result equals x whenever i ≤ len(s) (the clamping of splice makes
this fail for larger i). -/
theorem insertAt_nonneg_spec {α : Type} (s : List α) (i : Nat) (x : α) :
    (insertAt s (i : Int) [x]).length = s.length + 1 ∧
    insertAt s (i : Int) [x] =
      s.take (min i s.length) ++ x :: s.drop (min i s.length) ∧
    (i ≤ s.length → (insertAt s (i : Int) [x]).get? i = some x) := by
  refine ⟨insertAt_length s (i : Int) [x], ?_, ?_⟩
  · rw [insertAt_nonneg_eq, List.append_assoc, List.singleton_append]
  · intro hi
    have h2 : insertAt s (i : Int) [x] = s.take i ++ x :: s.drop i := by
      rw [insertAt_nonneg_eq, Nat.min_eq_left hi, List.append_assoc,
        List.singleton_append]
    rw [h2]
    exact get?_take_append_cons s i x _ hi

/-- C5 witness: the amended theorem instantiated at a concrete sequence,
index and item. -/
theorem insertAt_nonneg_spec_witness :
    (insertAt [10, 20] ((1 : Nat) : Int) [9]).get? 1 = some 9 :=
  (insertAt_nonneg_spec [10, 20] 1 9).2.2 (by decide)

/-- C6: for every sequence s, negative i with natAbs i ≤ len(s)+1 and item
x, the element at position len(s)+1+i of insertAt(s, i, x), counted in the
new one-longer sequence, equals x. -/
theorem insertAt_neg_position {α : Type} (s : List α) (i : Int) (x : α)
    (hneg : i < 0) (hbound : i.natAbs ≤ s.length + 1) :
    (insertAt s i [x]).get? ((s.length : Int) + 1 + i).toNat = some x := by
  unfold insertAt
  rw [if_neg (by omega)]
  unfold spliceInsert
  have hk : spliceStart s.length ((s.length : Int) + 1 + i) =
      ((s.length : Int) + 1 + i).toNat := by
    unfold spliceStart
    rw [if_neg (by omega)]
    omega
  rw [hk, List.append_assoc, List.singleton_append]
  exact get?_take_append_cons s _ x _ (by omega)

/-- C6 witness: the theorem instantiated at a concrete sequence, negative
index and item. -/
theorem insertAt_neg_position_witness :
    (insertAt [10, 20] (-1 : Int) [9]).get?
      ((List.length [10, 20] : Int) + 1 + (-1)).toNat = some 9 :=
  insertAt_neg_position [10, 20] (-1) 9 (by decide) (by decide)

/-- C7 counterexample: insertAt([10,20], -1, 9) = [10,20,9], so x lands
after the original last element, not immediately before it; and
insertAt([10,20,30], -2, 9) = [10,20,9,30], so x lands immediately before
the last element, not before the second-to-last. -/
theorem insertAt_neg_one_two_counterexample :
    insertAt [10, 20] (-1) [9] = [10, 20, 9] ∧
    insertAt [10, 20] (-1) [9] ≠ [10, 9, 20] ∧
    insertAt [10, 20, 30] (-2) [9] = [10, 20, 9, 30] ∧
    insertAt [10, 20, 30] (-2) [9] ≠ [10, 9, 20, 30] := by
  decide

/-- C7 (amended): for every sequence s and item x, insertAt(s, -1, x)
appends x after the last element of s (x becomes the last element of the
result), and insertAt(s, -2, x) inserts x immediately before the last
element of s — positions -1 and -2 count from the end of the new,
one-longer sequence. -/
theorem insertAt_neg_one_two_spec {α : Type} (s : List α) (x : α) :
    insertAt s (-1) [x] = s ++ [x] ∧
    insertAt s (-2) [x] =
      s.take (s.length - 1) ++ x :: s.drop (s.length - 1) := by
  refine ⟨insertAt_append_end s [x], ?_⟩
  rw [insertAt_neg_two, List.append_assoc, List.singleton_append]

/-- C8: for every manifest, makeBaseNPMConfig sets the external module set
to exactly the union of the platform built-in module names and the keys of
the dependencies, devDependencies and peerDependencies mappings; in
particular the concrete scenario yields fs, path, a, b. -/
theorem npm_external_union (builtinModules : List String)
    (packageDotJSON : PackageDotJSON) (options : NPMOptions) :
    (∀ m, m ∈ (makeBaseNPMConfig builtinModules packageDotJSON
        options).external ↔
      (m ∈ builtinModules ∨ m ∈ jsKeys packageDotJSON.dependencies ∨
        m ∈ jsKeys packageDotJSON.devDependencies ∨
        m ∈ jsKeys packageDotJSON.peerDependencies)) ∧
    (makeBaseNPMConfig ["fs", "path"] exampleManifest {}).external =
      ["fs", "path", "a", "b"] := by
  refine ⟨fun m => ?_, rfl⟩
  simp [makeBaseNPMConfig, List.mem_append, or_assoc]

/-- C9: for every base config passing the license-last validation, the
three configs returned by makeBundleConfigVariants all share the base's
input, and each variant's plugin list is a fresh, independently computed
list: no variant's plugin list equals another's or the base's (in the pure
embedding every insertAt call copies, so mutating one variant can never
alter another). -/
theorem variants_share_input_fresh_plugins (baseConfig : BuildConfig)
    (h : validateDistributableBundle baseConfig.plugins = .ok ()) :
    ∃ plain minified debugMinified : BuildConfig,
      makeBundleConfigVariants baseConfig =
        .ok [plain, minified, debugMinified] ∧
      plain.input = baseConfig.input ∧
      minified.input = baseConfig.input ∧
      debugMinified.input = baseConfig.input ∧
      plain.plugins ≠ baseConfig.plugins ∧
      minified.plugins ≠ baseConfig.plugins ∧
      debugMinified.plugins ≠ baseConfig.plugins ∧
      plain.plugins ≠ minified.plugins ∧
      plain.plugins ≠ debugMinified.plugins ∧
      minified.plugins ≠ debugMinified.plugins := by
  refine ⟨_, _, _, makeBundleConfigVariants_ok baseConfig h,
    rfl, rfl, rfl, ?_, ?_, ?_, ?_, ?_, ?_⟩
  · intro heq
    have hlen := congrArg List.length heq
    rw [insertAt_length] at hlen
    simp at hlen
  · intro heq
    have hlen := congrArg List.length heq
    rw [insertAt_length] at hlen
    simp at hlen
  · intro heq
    have hlen := congrArg List.length heq
    rw [insertAt_length] at hlen
    simp at hlen
  · intro heq
    have hlen := congrArg List.length heq
    rw [insertAt_length, insertAt_length] at hlen
    simp at hlen
  · intro heq
    have hlen := congrArg List.length heq
    rw [insertAt_length, insertAt_length] at hlen
    simp at hlen
  · intro heq
    have hget := congrArg
      (fun l => l.get? (baseConfig.plugins.length - 1)) heq
    simp only [insertAt_neg_two_get?] at hget
    simp [makeIsDebugBuildPlugin] at hget

/-- C9 witness: the theorem instantiated at a concrete valid base config. -/
theorem variants_share_input_fresh_plugins_witness :
    ∃ plain minified debugMinified : BuildConfig,
      makeBundleConfigVariants exampleBase =
        .ok [plain, minified, debugMinified] ∧
      plain.input = exampleBase.input ∧
      minified.input = exampleBase.input ∧
      debugMinified.input = exampleBase.input ∧
      plain.plugins ≠ exampleBase.plugins ∧
      minified.plugins ≠ exampleBase.plugins ∧
      debugMinified.plugins ≠ exampleBase.plugins ∧
      plain.plugins ≠ minified.plugins ∧
      plain.plugins ≠ debugMinified.plugins ∧
      minified.plugins ≠ debugMinified.plugins :=
  variants_share_input_fresh_plugins exampleBase rfl

/-- C10: makeBaseNPMConfig is callable with its options argument omitted;
with no entrypoint the input is src/index.ts, and output.interop is "auto"
when esModuleInterop is truthy and "esModule" otherwise. -/
theorem npm_default_options (builtinModules : List String)
    (packageDotJSON : PackageDotJSON) :
    (makeBaseNPMConfig builtinModules packageDotJSON).input =
      some "src/index.ts" ∧
    (makeBaseNPMConfig builtinModules packageDotJSON).output.interop =
      some "esModule" ∧
    (∀ emi : Option Bool,
      (makeBaseNPMConfig builtinModules packageDotJSON
          { entrypoint := none, esModuleInterop := emi }).input =
        some "src/index.ts") ∧
    (∀ e : Option String, ∀ emi : Option Bool,
      (makeBaseNPMConfig builtinModules packageDotJSON
          { entrypoint := e, esModuleInterop := emi }).output.interop =
        some (if emi.getD false then "auto" else "esModule")) :=
  ⟨rfl, rfl, fun _ => rfl, fun _ _ => rfl⟩

end RollupConfig
